import Mathlib

/-!
Verification of the snake-game simulation engine (`src/main.py`).

The engine is shallowly embedded: positions are integer pairs, the snake is a
record mirroring the `Snake` class, and the relevant pieces of `Game.update`,
`Game._free_cell` and `Game.to_over` become pure Lean functions.  Floating
point speed arithmetic is modelled over `ℚ`, faithful to the algebraic
operations the source performs.
-/

namespace SnakeGame

/-- A grid cell, an integer pair `(x, y)`; Python ints are unbounded so we use `ℤ`. -/
abbrev Pos := ℤ × ℤ

/-- `GRID_W = WIDTH // CELL = 800 // 20`. -/
def GRID_W : ℤ := 40

/-- `GRID_H = HEIGHT // CELL = 600 // 20`. -/
def GRID_H : ℤ := 30

/-- `RAMP_PER_NORMAL = 0.12`, speed increase per normal food. -/
def RAMP_PER_NORMAL : ℚ := 12 / 100

/-- `MAX_SPEED = 16.0`. -/
def MAX_SPEED : ℚ := 16

/-- `clamp(v, lo, hi) = max(lo, min(hi, v))`. -/
def clamp (v lo hi : ℚ) : ℚ := max lo (min hi v)

/-- `within_grid(cell)`: `0 <= x < GRID_W and 0 <= y < GRID_H`. -/
def within_grid (c : Pos) : Prop :=
  0 ≤ c.1 ∧ c.1 < GRID_W ∧ 0 ≤ c.2 ∧ c.2 < GRID_H

instance : DecidablePred within_grid := fun c => by
  unfold within_grid; infer_instance

/-- The failure outcomes `Snake.step` can report (`None` models success). -/
inductive Outcome
  | WALL
  | SELF
  | OBSTACLE
deriving DecidableEq, Repr

/-- The `Snake` class: head-first body list, applied and buffered direction,
pending growth counter, alive flag. -/
structure Snake where
  body : List Pos
  dir : Pos
  next_dir : Pos
  grow : ℕ
  alive : Bool
deriving DecidableEq, Repr

/-- `Snake.__init__(start)`: body `[start]`, moving right, `grow = 2`. -/
def Snake.init (start : Pos) : Snake :=
  { body := [start], dir := (1, 0), next_dir := (1, 0), grow := 2, alive := true }

/-- `Snake.set_dir(d)`: rejected (no-op) when the body is longer than one cell
and `d` is the exact opposite of the applied direction; otherwise buffers `d`. -/
def Snake.set_dir (s : Snake) (d : Pos) : Snake :=
  if 1 < s.body.length ∧ d.1 = -s.dir.1 ∧ d.2 = -s.dir.2 then s
  else { s with next_dir := d }

/-- The head cell the next `Snake.step` will move to: one cell from the current
head in the buffered direction, reduced modulo the grid when wrap or ghost is on. -/
def Snake.newHead (s : Snake) (wrap ghost : Bool) : Pos :=
  let h := s.body.headI
  let n : Pos := (h.1 + s.next_dir.1, h.2 + s.next_dir.2)
  if wrap ∨ ghost then (n.1 % GRID_W, n.2 % GRID_H) else n

/-- `Snake.step(wrap, ghost, obstacles)`: applies the buffered direction,
computes the new head (wrapping when `wrap or ghost`), reports `WALL`, `SELF`
or `OBSTACLE` with `alive = False` on collision, otherwise prepends the head
and either consumes one unit of pending growth or pops the tail. -/
def Snake.step (s0 : Snake) (wrap ghost : Bool) (obstacles : List Pos) :
    Option Outcome × Snake :=
  let s := { s0 with dir := s0.next_dir }
  let h := s.body.headI
  let n : Pos := (h.1 + s.dir.1, h.2 + s.dir.2)
  if ¬(wrap ∨ ghost) ∧ ¬ within_grid n then
    (some Outcome.WALL, { s with alive := false })
  else
    let new_head : Pos := if wrap ∨ ghost then (n.1 % GRID_W, n.2 % GRID_H) else n
    if ¬ghost ∧ new_head ∈ s.body.dropLast then
      (some Outcome.SELF, { s with alive := false })
    else if ¬ghost ∧ new_head ∈ obstacles then
      (some Outcome.OBSTACLE, { s with alive := false })
    else if 0 < s.grow then
      (none, { s with body := new_head :: s.body, grow := s.grow - 1 })
    else
      (none, { s with body := (new_head :: s.body).dropLast })

/-- One real-time update's inputs to the speed computation in `Game.update`:
the `normal_eaten` counter, whether `"SLOW" in self.effects`, and the frame
duration `dt`. -/
structure UpdateInput where
  normalEaten : ℕ
  slow : Bool
  dt : ℚ
deriving Repr

/-- The speed smoothing of `Game.update` (lines 460-465): clamp the ramped
target between `base_speed` and `MAX_SPEED`, scale by `0.7` when SLOW is
active, then move `speed` toward the target by the factor `min(1.0, dt*4.0)`. -/
def updateSpeed (base : ℚ) (speed : ℚ) (u : UpdateInput) : ℚ :=
  let target0 := clamp (base + u.normalEaten * RAMP_PER_NORMAL) base MAX_SPEED
  let target := if u.slow then target0 * (7 / 10) else target0
  speed + (target - speed) * min 1 (u.dt * 4)

/-- The speed after a sequence of updates, starting from `speed = base_speed`
as `Game._reseed` sets it. -/
def speedAfter (base : ℚ) (us : List UpdateInput) : ℚ :=
  us.foldl (updateSpeed base) base

/-- The three food kinds. -/
inductive FoodKind
  | NORMAL
  | GOLD
  | POISON
deriving DecidableEq, Repr

/-- The food-consumption branch of `Game.update` (lines 490-509), restricted
to the snake, the score and the score multiplier: NORMAL adds `int(10*mult)`
and one unit of growth, GOLD adds `int(30*mult)` and two units of growth,
POISON subtracts 20 (floored at 0) and pops up to two tail cells while the
body is longer than two. -/
def eatFood (kind : FoodKind) (s : Snake) (score : ℤ) (mult : ℚ) : Snake × ℤ :=
  match kind with
  | FoodKind.NORMAL => ({ s with grow := s.grow + 1 }, score + ⌊(10 : ℚ) * mult⌋)
  | FoodKind.GOLD => ({ s with grow := s.grow + 2 }, score + ⌊(30 : ℚ) * mult⌋)
  | FoodKind.POISON =>
      let s1 := if 2 < s.body.length then { s with body := s.body.dropLast } else s
      let s2 := if 2 < s1.body.length then { s1 with body := s1.body.dropLast } else s1
      (s2, max 0 (score - 20))

/-- The order in which the fallback scan of `Game._free_cell` visits the grid:
`for y in range(GRID_H): for x in range(GRID_W)`. -/
def scanOrder : List Pos :=
  (List.range 30).flatMap fun y => (List.range 40).map fun x => ((x : ℤ), (y : ℤ))

/-- The sampling loop of `Game._free_cell`: return the first free sampled
cell; once the samples are exhausted, fall back to the first free cell in
`scanOrder` (and `none` when the grid is fully occupied, where the source
loops forever). -/
def free_cell_go (occupied : Pos → Bool) : List Pos → Option Pos
  | [] => scanOrder.find? fun c => ! occupied c
  | c :: rest => if occupied c then free_cell_go occupied rest else some c

/-- `Game._free_cell()`, with the random draws made explicit: the loop takes
at most `10001` samples (the `tries > 10000` test fires after the 10001st
failed draw) before scanning deterministically. -/
def free_cell (occupied : Pos → Bool) (samples : List Pos) : Option Pos :=
  free_cell_go occupied (samples.take 10001)

/-- `ruleset_key(difficulty, wrap, maze)`. -/
def ruleset_key (difficulty : String) (wrap maze : Bool) : String :=
  difficulty ++ "|wrap=" ++ (if wrap then "1" else "0")
    ++ "|maze=" ++ (if maze then "1" else "0")

/-- `self.highscores.get(key, 0)` on the highscore dictionary. -/
def hs_get (hs : List (String × ℤ)) (key : String) : ℤ :=
  match hs.find? fun p => p.1 == key with
  | some p => p.2
  | none => 0

/-- `self.highscores[key] = v` on the highscore dictionary. -/
def hs_set (hs : List (String × ℤ)) (key : String) (v : ℤ) : List (String × ℤ) :=
  (key, v) :: hs.filter fun p => p.1 != key

/-- `Game.to_over` (lines 386-393), restricted to the highscore logic: the
second component counts the `save_highscores` calls performed. -/
def to_over (difficulty : String) (wrap maze : Bool) (score : ℤ)
    (hs : List (String × ℤ)) : List (String × ℤ) × ℕ :=
  let key := ruleset_key difficulty wrap maze
  let prev := hs_get hs key
  if prev < score then (hs_set hs key score, 1) else (hs, 0)

/-- The committed snake states: the spec's data model says the snake is
"mutated only by `step()`, `setDirection()`, and growth/shrink events", so a
state is committed when it arises from the per-round construction at the grid
centre by those operations (growth/shrink events being the food branch of
`Game.update`). -/
inductive SnakeReach : Snake → Prop
  | init : SnakeReach (Snake.init (20, 15))
  | set_dir (s : Snake) (d : Pos) : SnakeReach s → SnakeReach (Snake.set_dir s d)
  | step (s : Snake) (w g : Bool) (obs : List Pos) :
      SnakeReach s → SnakeReach ((Snake.step s w g obs).2)
  | eat (s : Snake) (k : FoodKind) (score : ℤ) (mult : ℚ) :
      SnakeReach s → SnakeReach (eatFood k s score mult).1

/-- Committed snake states restricted to steps whose incoming head cell is not
among the body cells the step retains (the guard needed for pairwise-distinct
bodies; with ghost inactive the self-collision test enforces all of it except
the retained tail under pending growth). -/
inductive SnakeReachSafe : Snake → Prop
  | init : SnakeReachSafe (Snake.init (20, 15))
  | set_dir (s : Snake) (d : Pos) : SnakeReachSafe s → SnakeReachSafe (Snake.set_dir s d)
  | step (s : Snake) (w g : Bool) (obs : List Pos) :
      SnakeReachSafe s →
      Snake.newHead s w g ∉ (if 0 < s.grow then s.body else s.body.dropLast) →
      SnakeReachSafe ((Snake.step s w g obs).2)
  | eat (s : Snake) (k : FoodKind) (score : ℤ) (mult : ℚ) :
      SnakeReachSafe s → SnakeReachSafe (eatFood k s score mult).1

/-- A concrete play: grow to length four, bend into a 2x2 loop, queue one more
growth unit, then step onto the still-retained tail cell.  Every operation is
one the game performs (two initial steps, a NORMAL food, a step, two turns
with their steps, a second NORMAL food, a final turn and step); the final
step's head cell `(22, 15)` equals the tail that pending growth retains. -/
def c2trace : Snake :=
  let s1 := (Snake.step (Snake.init (20, 15)) false false []).2
  let s2 := (Snake.step s1 false false []).2
  let s3 := (eatFood FoodKind.NORMAL s2 0 1).1
  let s4 := (Snake.step s3 false false []).2
  let s5 := Snake.set_dir s4 (0, 1)
  let s6 := (Snake.step s5 false false []).2
  let s7 := Snake.set_dir s6 (-1, 0)
  let s8 := (Snake.step s7 false false []).2
  let s9 := (eatFood FoodKind.NORMAL s8 0 1).1
  let s10 := Snake.set_dir s9 (0, -1)
  (Snake.step s10 false false []).2

/-- `step` applies the buffered direction. -/
theorem step_dir (s : Snake) (w g : Bool) (obs : List Pos) :
    (Snake.step s w g obs).2.dir = s.next_dir := by
  obtain ⟨body, dir, nd, grow, alive⟩ := s
  simp only [Snake.step]
  split_ifs <;> rfl

/-- `step` leaves the buffered direction in place. -/
theorem step_next_dir (s : Snake) (w g : Bool) (obs : List Pos) :
    (Snake.step s w g obs).2.next_dir = s.next_dir := by
  obtain ⟨body, dir, nd, grow, alive⟩ := s
  simp only [Snake.step]
  split_ifs <;> rfl

/-- `set_dir` never touches the body. -/
theorem set_dir_body (s : Snake) (d : Pos) : (Snake.set_dir s d).body = s.body := by
  unfold Snake.set_dir
  split_ifs <;> rfl

/-- A step whose incoming head cell avoids the body cells the step retains
preserves distinctness and nonemptiness of the body. -/
theorem step_nodup (s : Snake) (w g : Bool) (obs : List Pos)
    (hne : s.body ≠ []) (hnd : s.body.Nodup)
    (hguard : Snake.newHead s w g ∉ (if 0 < s.grow then s.body else s.body.dropLast)) :
    (Snake.step s w g obs).2.body.Nodup ∧ (Snake.step s w g obs).2.body ≠ [] := by
  obtain ⟨body, dir, nd, grow, alive⟩ := s
  cases body with
  | nil => exact absurd rfl hne
  | cons a as =>
    have hdl : (a :: as).dropLast.Nodup := List.Nodup.sublist (List.dropLast_sublist _) hnd
    simp only [Snake.step, Snake.newHead] at hguard ⊢
    split_ifs at hguard ⊢ <;> simp_all [List.nodup_cons]

/-- The food branch preserves distinctness and nonemptiness of the body. -/
theorem eatFood_nodup (k : FoodKind) (s : Snake) (score : ℤ) (mult : ℚ)
    (hne : s.body ≠ []) (hnd : s.body.Nodup) :
    (eatFood k s score mult).1.body.Nodup ∧ (eatFood k s score mult).1.body ≠ [] := by
  have hdl : s.body.dropLast.Nodup := List.Nodup.sublist (List.dropLast_sublist _) hnd
  have hdl2 : s.body.dropLast.dropLast.Nodup :=
    List.Nodup.sublist (List.dropLast_sublist _) hdl
  have hlen : 0 < s.body.length := List.length_pos.mpr hne
  cases k <;> simp only [eatFood] <;> (try split_ifs) <;>
    refine ⟨?_, ?_⟩ <;>
    first
      | assumption
      | (rw [← List.length_pos] at *; simp only [List.length_dropLast] at *; omega)

/-- Bodies of guarded committed states are pairwise distinct and nonempty. -/
theorem snakeReachSafe_invariant (s : Snake) (h : SnakeReachSafe s) :
    s.body.Nodup ∧ s.body ≠ [] := by
  induction h with
  | init => exact ⟨by decide, by decide⟩
  | set_dir s d _ ih => rw [set_dir_body]; exact ih
  | step s w g obs _ hguard ih => exact step_nodup s w g obs ih.2 ih.1 hguard
  | eat s k score mult _ ih => exact eatFood_nodup k s score mult ih.2 ih.1

/-- C2 counterexample: the committed state `c2trace` — reached from the
per-round construction by game operations alone, with the GHOST effect never
active — has the cell `(22, 15)` twice in its body: the final step's head
lands on the tail cell that pending growth retains, which the source's
self-collision check (`new_head in self.body[:-1]`) does not examine. -/
theorem C2_counterexample : SnakeReach c2trace ∧ ¬ c2trace.body.Nodup := by
  constructor
  · exact SnakeReach.step _ false false []
      (SnakeReach.set_dir _ _
        (SnakeReach.eat _ FoodKind.NORMAL 0 1
          (SnakeReach.step _ false false []
            (SnakeReach.set_dir _ _
              (SnakeReach.step _ false false []
                (SnakeReach.set_dir _ _
                  (SnakeReach.step _ false false []
                    (SnakeReach.eat _ FoodKind.NORMAL 0 1
                      (SnakeReach.step _ false false []
                        (SnakeReach.step _ false false []
                          SnakeReach.init))))))))))
  · decide

/-- C2 amended: the body cells are pairwise distinct in every committed state
provided each step's incoming head cell is not among the body cells that step
retains — with the GHOST effect inactive, the self-collision check enforces
this except when the head moves onto the still-retained tail while growth is
pending, the two situations the counterexamples exploit. -/
theorem C2_amended_body_nodup (s : Snake) (h : SnakeReachSafe s) : s.body.Nodup :=
  (snakeReachSafe_invariant s h).1

/-- Witness for C2: the freshly constructed one-cell snake has a duplicate-free
body. -/
theorem C2_witness : (Snake.init (20, 15)).body.Nodup :=
  C2_amended_body_nodup (Snake.init (20, 15)) SnakeReachSafe.init

/-- C3: for every call to `step` on a nonempty-bodied snake that returns no
failure outcome, the new head is prepended to the body; with pending growth
the counter is decremented and the tail kept (length grows by one), otherwise
the tail cell is removed (length unchanged). -/
theorem C3_step_success (s : Snake) (w g : Bool) (obs : List Pos)
    (h : s.body ≠ []) (hn : (Snake.step s w g obs).1 = none) :
    (Snake.step s w g obs).2.body
        = Snake.newHead s w g :: (if 0 < s.grow then s.body else s.body.dropLast)
      ∧ (Snake.step s w g obs).2.grow = (if 0 < s.grow then s.grow - 1 else s.grow)
      ∧ (Snake.step s w g obs).2.body.length
        = (if 0 < s.grow then s.body.length + 1 else s.body.length) := by
  obtain ⟨body, dir, nd, grow, alive⟩ := s
  cases body with
  | nil => exact absurd rfl h
  | cons a as =>
    simp only [Snake.step, Snake.newHead] at hn ⊢
    split_ifs at hn ⊢ with h1 h2 h3 h4 <;> simp_all

/-- Witness for C3: the freshly constructed snake steps successfully, its head
moves one cell right, the body grows to length two and `grow` drops to one. -/
theorem C3_witness :
    (Snake.step (Snake.init (20, 15)) false false []).2.body
        = Snake.newHead (Snake.init (20, 15)) false false
            :: (if 0 < (Snake.init (20, 15)).grow then (Snake.init (20, 15)).body
                else (Snake.init (20, 15)).body.dropLast)
      ∧ (Snake.step (Snake.init (20, 15)) false false []).2.grow
        = (if 0 < (Snake.init (20, 15)).grow then (Snake.init (20, 15)).grow - 1
           else (Snake.init (20, 15)).grow)
      ∧ (Snake.step (Snake.init (20, 15)) false false []).2.body.length
        = (if 0 < (Snake.init (20, 15)).grow then (Snake.init (20, 15)).body.length + 1
           else (Snake.init (20, 15)).body.length) :=
  C3_step_success (Snake.init (20, 15)) false false [] (by decide) (by decide)

/-- C4: with the GHOST effect active, `step` never reports a failure (in
particular a step that would otherwise report `SELF` or `OBSTACLE` returns
success), and the new head is the displaced head reduced modulo the grid
dimensions whatever the wrap option is. -/
theorem C4_ghost_step (s : Snake) (w : Bool) (obs : List Pos) (h : s.body ≠ []) :
    (Snake.step s w true obs).1 = none
      ∧ (Snake.step s w true obs).2.body.headI
        = ((s.body.headI.1 + s.next_dir.1) % GRID_W,
           (s.body.headI.2 + s.next_dir.2) % GRID_H) := by
  obtain ⟨body, dir, nd, grow, alive⟩ := s
  cases body with
  | nil => exact absurd rfl h
  | cons a as =>
    simp only [Snake.step]
    split_ifs <;> simp_all

/-- Witness for C4: a snake about to hit both the right wall and an obstacle
steps through it under GHOST, wrapping to `x = 0` with wrap disabled. -/
theorem C4_witness :
    (Snake.step ⟨[(39, 15)], (1, 0), (1, 0), 0, true⟩ false true [(0, 15)]).1 = none
      ∧ (Snake.step ⟨[(39, 15)], (1, 0), (1, 0), 0, true⟩ false true [(0, 15)]).2.body.headI
        = (((39 : ℤ) + 1) % GRID_W, ((15 : ℤ) + 0) % GRID_H) :=
  C4_ghost_step ⟨[(39, 15)], (1, 0), (1, 0), 0, true⟩ false [(0, 15)] (by decide)

/-- C10: whenever `step` reports a failure outcome, the body and the pending
growth counter are untouched; only `alive` (now `False`) and the applied
direction (now the buffered one) change, the buffered direction included
among the preserved fields. -/
theorem C10_step_failure_preserves (s : Snake) (w g : Bool) (obs : List Pos)
    (r : Outcome) (hr : (Snake.step s w g obs).1 = some r) :
    (Snake.step s w g obs).2.body = s.body
      ∧ (Snake.step s w g obs).2.grow = s.grow
      ∧ (Snake.step s w g obs).2.alive = false
      ∧ (Snake.step s w g obs).2.next_dir = s.next_dir
      ∧ (Snake.step s w g obs).2.dir = s.next_dir := by
  obtain ⟨body, dir, nd, grow, alive⟩ := s
  simp only [Snake.step] at hr ⊢
  split_ifs at hr ⊢ <;> simp_all

/-- Witness for C10: a wall crash leaves the single-cell body and growth
counter intact while clearing `alive`. -/
theorem C10_witness :
    (Snake.step ⟨[(39, 15)], (1, 0), (1, 0), 5, true⟩ false false []).2.body = [(39, 15)]
      ∧ (Snake.step ⟨[(39, 15)], (1, 0), (1, 0), 5, true⟩ false false []).2.grow = 5
      ∧ (Snake.step ⟨[(39, 15)], (1, 0), (1, 0), 5, true⟩ false false []).2.alive = false
      ∧ (Snake.step ⟨[(39, 15)], (1, 0), (1, 0), 5, true⟩ false false []).2.next_dir = (1, 0)
      ∧ (Snake.step ⟨[(39, 15)], (1, 0), (1, 0), 5, true⟩ false false []).2.dir = (1, 0) :=
  C10_step_failure_preserves ⟨[(39, 15)], (1, 0), (1, 0), 5, true⟩ false false []
    Outcome.WALL (by decide)

/-- C5 counterexample: a snake moving right with down already buffered; the
request to go left is rejected as the exact opposite of the applied direction
while the body has two cells, yet the direction after the step is the buffered
down, not the unchanged right — so "the direction after `step()` is
unchanged" fails as stated. -/
theorem C5_counterexample :
    (Snake.set_dir ⟨[(1, 0), (0, 0)], (1, 0), (0, 1), 0, true⟩ (-1, 0)
        = ⟨[(1, 0), (0, 0)], (1, 0), (0, 1), 0, true⟩)
      ∧ (Snake.step (Snake.set_dir ⟨[(1, 0), (0, 0)], (1, 0), (0, 1), 0, true⟩ (-1, 0))
          false false []).2.dir ≠ (1, 0) := by
  constructor
  · decide
  · decide

/-- C5 amended: for any direction `d` other than the exact opposite of the
applied direction, `set_dir d` followed by `step` leaves the snake moving in
`d`; for the exact opposite while the body is longer than one cell, `set_dir`
is a no-op, and — when no different direction is already buffered — the
direction after `step` is unchanged. -/
theorem C5_amended_set_dir (s : Snake) (d : Pos) (w g : Bool) (obs : List Pos) :
    (¬(d.1 = -s.dir.1 ∧ d.2 = -s.dir.2) →
        (Snake.step (Snake.set_dir s d) w g obs).2.dir = d)
      ∧ ((d.1 = -s.dir.1 ∧ d.2 = -s.dir.2) → 1 < s.body.length →
          Snake.set_dir s d = s
            ∧ (s.next_dir = s.dir →
                (Snake.step (Snake.set_dir s d) w g obs).2.dir = s.dir)) := by
  refine ⟨fun hopp => ?_, fun hopp hlen => ?_⟩
  · have hset : (Snake.set_dir s d).next_dir = d := by
      unfold Snake.set_dir
      rw [if_neg fun hc => hopp hc.2]
    rw [step_dir, hset]
  · have hset : Snake.set_dir s d = s := by
      unfold Snake.set_dir
      rw [if_pos ⟨hlen, hopp⟩]
    refine ⟨hset, fun hnd => ?_⟩
    rw [hset, step_dir, hnd]

/-- Witness for C5: pressing down while moving right takes effect at the next
step; pressing left (the exact opposite) from a quiescent buffer leaves the
snake moving right. -/
theorem C5_witness :
    ((Snake.step (Snake.set_dir ⟨[(1, 0), (0, 0)], (1, 0), (1, 0), 0, true⟩ (0, 1))
        false false []).2.dir = (0, 1))
      ∧ (Snake.set_dir ⟨[(1, 0), (0, 0)], (1, 0), (1, 0), 0, true⟩ (-1, 0)
            = ⟨[(1, 0), (0, 0)], (1, 0), (1, 0), 0, true⟩
          ∧ (Snake.step (Snake.set_dir ⟨[(1, 0), (0, 0)], (1, 0), (1, 0), 0, true⟩ (-1, 0))
              false false []).2.dir = (1, 0)) := by
  constructor
  · exact (C5_amended_set_dir ⟨[(1, 0), (0, 0)], (1, 0), (1, 0), 0, true⟩ (0, 1)
      false false []).1 (by decide)
  · have h := (C5_amended_set_dir ⟨[(1, 0), (0, 0)], (1, 0), (1, 0), 0, true⟩ (-1, 0)
      false false []).2 (by decide) (by decide)
    exact ⟨h.1, h.2 rfl⟩

/-- A single speed update with SLOW inactive and a nonnegative frame time
keeps `speed` within `[base_speed, MAX_SPEED]`. -/
theorem updateSpeed_bounds (base speed : ℚ) (u : UpdateInput)
    (hb : base ≤ MAX_SPEED) (hd : 0 ≤ u.dt) (hslow : u.slow = false)
    (h1 : base ≤ speed) (h2 : speed ≤ MAX_SPEED) :
    base ≤ updateSpeed base speed u ∧ updateSpeed base speed u ≤ MAX_SPEED := by
  simp only [updateSpeed, clamp, hslow, Bool.false_eq_true, if_false]
  have ht1 : base ≤ max base (min MAX_SPEED (base + u.normalEaten * RAMP_PER_NORMAL)) :=
    le_max_left _ _
  have ht2 : max base (min MAX_SPEED (base + u.normalEaten * RAMP_PER_NORMAL)) ≤ MAX_SPEED :=
    max_le hb (min_le_left _ _)
  have ha1 : (0 : ℚ) ≤ min 1 (u.dt * 4) := le_min (by norm_num) (by positivity)
  have ha2 : min 1 (u.dt * 4) ≤ 1 := min_le_left _ _
  constructor <;>
    nlinarith [mul_nonneg (sub_nonneg.mpr h1) (sub_nonneg.mpr ha2),
      mul_nonneg (sub_nonneg.mpr ht1) ha1,
      mul_nonneg (sub_nonneg.mpr h2) (sub_nonneg.mpr ha2),
      mul_nonneg (sub_nonneg.mpr ht2) ha1]

/-- C1 counterexample: starting a NORMAL-difficulty round (`base_speed = 7.5`)
with the SLOW power-up active, a single one-second update drives `speed` to
`5.25`, strictly below `base_speed` — so the claimed lower bound fails once
power-ups are allowed. -/
theorem C1_counterexample :
    speedAfter (15 / 2) [⟨0, true, 1⟩] < 15 / 2 := by
  norm_num [speedAfter, updateSpeed, clamp, RAMP_PER_NORMAL, MAX_SPEED, min_def, max_def]

/-- C1 amended: for every update sequence in which the SLOW effect is inactive
and frame times are nonnegative, the speed stays within
`[base_speed, MAX_SPEED]` after every update (stated for all such sequences,
hence for each prefix of a run). -/
theorem C1_amended_speed_bounds (base : ℚ) (us : List UpdateInput)
    (hb : base ≤ MAX_SPEED)
    (hus : ∀ u ∈ us, u.slow = false ∧ 0 ≤ u.dt) :
    base ≤ speedAfter base us ∧ speedAfter base us ≤ MAX_SPEED := by
  suffices h : ∀ us' : List UpdateInput, (∀ u ∈ us', u.slow = false ∧ 0 ≤ u.dt) →
      ∀ speed : ℚ, base ≤ speed → speed ≤ MAX_SPEED →
        base ≤ us'.foldl (updateSpeed base) speed
          ∧ us'.foldl (updateSpeed base) speed ≤ MAX_SPEED by
    exact h us hus base le_rfl hb
  intro us'
  induction us' with
  | nil => exact fun _ speed h1 h2 => ⟨h1, h2⟩
  | cons u rest ih =>
    intro hall speed h1 h2
    have hu := hall u (List.mem_cons_self u rest)
    have hbd := updateSpeed_bounds base speed u hb hu.2 hu.1 h1 h2
    exact ih (fun v hv => hall v (List.mem_cons_of_mem u hv)) _ hbd.1 hbd.2

/-- Witness for C1: after one 60 fps frame with three NORMAL foods eaten and
SLOW inactive, the NORMAL-difficulty speed is still within `[7.5, 16]`. -/
theorem C1_witness :
    (15 : ℚ) / 2 ≤ speedAfter (15 / 2) [⟨3, false, 1 / 60⟩]
      ∧ speedAfter (15 / 2) [⟨3, false, 1 / 60⟩] ≤ MAX_SPEED :=
  C1_amended_speed_bounds (15 / 2) [⟨3, false, 1 / 60⟩] (by norm_num [MAX_SPEED])
    (by
      intro u hu
      rw [List.mem_singleton] at hu
      subst hu
      exact ⟨rfl, by norm_num⟩)

/-- The POISON branch: score drops by 20 floored at 0, the body loses at most
its two trailing cells, never going below length two, growth untouched. -/
theorem eatFood_poison_shape (s : Snake) (score : ℤ) (mult : ℚ) :
    (eatFood FoodKind.POISON s score mult).2 = max 0 (score - 20)
      ∧ (eatFood FoodKind.POISON s score mult).1.body <+: s.body
      ∧ s.body.length - 2 ≤ (eatFood FoodKind.POISON s score mult).1.body.length
      ∧ (eatFood FoodKind.POISON s score mult).1.body.length ≤ s.body.length
      ∧ (2 ≤ s.body.length → 2 ≤ (eatFood FoodKind.POISON s score mult).1.body.length)
      ∧ (eatFood FoodKind.POISON s score mult).1.grow = s.grow := by
  simp only [eatFood]
  split_ifs <;>
    refine ⟨?_, ?_, ?_, ?_, ?_, ?_⟩ <;>
    first
      | trivial
      | exact (List.dropLast_prefix _).trans (List.dropLast_prefix _)
      | exact List.dropLast_prefix _
      | exact List.prefix_refl _
      | (intros; simp only [List.length_dropLast] at *; omega)

/-- C6 counterexample: a GOLD food increases `grow` by two (`self.snake.grow
+= 2`), so "GOLD ... increments pendingGrowth" — an increase by one — fails:
from the fresh snake's `grow = 2` it reaches 4, not 3. -/
theorem C6_counterexample :
    (eatFood FoodKind.GOLD (Snake.init (20, 15)) 0 1).1.grow
      ≠ (Snake.init (20, 15)).grow + 1 := by
  decide

/-- C6 amended: with the score multiplier at its two attainable values, NORMAL
adds `10 x multiplier` to the score and one unit of pending growth, GOLD adds
`30 x multiplier` and two units of pending growth, and POISON subtracts 20
floored at zero while removing at most two trailing cells and never taking the
body below length two. -/
theorem C6_amended_eatFood (s : Snake) (score : ℤ) (mult : ℚ)
    (hm : mult = 1 ∨ mult = 2) :
    (((eatFood FoodKind.NORMAL s score mult).2 : ℚ) = (score : ℚ) + 10 * mult
        ∧ (eatFood FoodKind.NORMAL s score mult).1.grow = s.grow + 1
        ∧ (eatFood FoodKind.NORMAL s score mult).1.body = s.body)
      ∧ (((eatFood FoodKind.GOLD s score mult).2 : ℚ) = (score : ℚ) + 30 * mult
          ∧ (eatFood FoodKind.GOLD s score mult).1.grow = s.grow + 2
          ∧ (eatFood FoodKind.GOLD s score mult).1.body = s.body)
      ∧ ((eatFood FoodKind.POISON s score mult).2 = max 0 (score - 20)
          ∧ (eatFood FoodKind.POISON s score mult).1.body <+: s.body
          ∧ s.body.length - 2 ≤ (eatFood FoodKind.POISON s score mult).1.body.length
          ∧ (eatFood FoodKind.POISON s score mult).1.body.length ≤ s.body.length
          ∧ (2 ≤ s.body.length → 2 ≤ (eatFood FoodKind.POISON s score mult).1.body.length)
          ∧ (eatFood FoodKind.POISON s score mult).1.grow = s.grow) := by
  refine ⟨⟨?_, rfl, rfl⟩, ⟨?_, rfl, rfl⟩, eatFood_poison_shape s score mult⟩ <;>
    rcases hm with rfl | rfl <;>
    · simp only [eatFood]
      push_cast
      norm_num

/-- Witness for C6: with the MULTI effect active (`multiplier = 2`), a NORMAL
food takes the score from 40 to 60 and adds one unit of growth. -/
theorem C6_witness :
    ((eatFood FoodKind.NORMAL (Snake.init (20, 15)) 40 2).2 : ℚ)
        = ((40 : ℤ) : ℚ) + 10 * 2
      ∧ (eatFood FoodKind.NORMAL (Snake.init (20, 15)) 40 2).1.grow
        = (Snake.init (20, 15)).grow + 1
      ∧ (eatFood FoodKind.NORMAL (Snake.init (20, 15)) 40 2).1.body
        = (Snake.init (20, 15)).body :=
  (C6_amended_eatFood (Snake.init (20, 15)) 40 2 (Or.inr rfl)).1

/-- The sampling loop yields a cell whenever some grid cell is unoccupied. -/
theorem free_cell_go_isSome (occupied : Pos → Bool) (l : List Pos)
    (h : ∃ c ∈ scanOrder, occupied c = false) :
    (free_cell_go occupied l).isSome = true := by
  induction l with
  | nil =>
    obtain ⟨c, hc, hocc⟩ := h
    simp only [free_cell_go]
    exact List.find?_isSome.mpr ⟨c, hc, by simp [hocc]⟩
  | cons c rest ih =>
    simp only [free_cell_go]
    split_ifs with hc
    · exact ih
    · rfl

/-- Once every sample is rejected, the loop is exactly the deterministic scan. -/
theorem free_cell_go_exhausted (occupied : Pos → Bool) (l : List Pos)
    (hall : ∀ c ∈ l, occupied c = true) :
    free_cell_go occupied l = scanOrder.find? fun c => ! occupied c := by
  induction l with
  | nil => rfl
  | cons c rest ih =>
    simp only [free_cell_go]
    rw [if_pos (hall c (List.mem_cons_self c rest))]
    exact ih fun v hv => hall v (List.mem_cons_of_mem c hv)

/-- Any cell the sampling loop returns is unoccupied. -/
theorem free_cell_go_not_occupied (occupied : Pos → Bool) (l : List Pos) (c : Pos)
    (h : free_cell_go occupied l = some c) : occupied c = false := by
  induction l with
  | nil =>
    simp only [free_cell_go] at h
    have hfind := List.find?_some h
    simpa using hfind
  | cons d rest ih =>
    simp only [free_cell_go] at h
    split_ifs at h with hd
    · exact ih h
    · rw [Option.some_inj] at h
      subst h
      simpa using hd

/-- C7: whenever the occupancy set leaves some grid cell unoccupied,
`_free_cell` terminates with a cell; and when every one of the bounded 10001
random draws was rejected, it returns exactly the first unoccupied cell of the
deterministic row-major scan. -/
theorem C7_free_cell_terminates (occupied : Pos → Bool) (samples : List Pos)
    (h : ∃ c ∈ scanOrder, occupied c = false) :
    (free_cell occupied samples).isSome = true
      ∧ ((∀ c ∈ samples.take 10001, occupied c = true) →
          free_cell occupied samples = scanOrder.find? fun c => ! occupied c) :=
  ⟨free_cell_go_isSome occupied _ h, fun hall => free_cell_go_exhausted occupied _ hall⟩

/-- Witness for C7: on an empty occupancy set with no successful draw,
`_free_cell` terminates and the fallback scan applies. -/
theorem C7_witness :
    (free_cell (fun _ => false) []).isSome = true
      ∧ ((∀ c ∈ ([] : List Pos).take 10001, (fun (_ : Pos) => false) c = true) →
          free_cell (fun _ => false) []
            = scanOrder.find? fun c => ! (fun (_ : Pos) => false) c) :=
  C7_free_cell_terminates (fun _ => false) [] ⟨((0 : ℤ), (0 : ℤ)), by decide, rfl⟩

/-- C8: whatever the occupancy set and the random draw sequence, a cell
returned by `_free_cell` is not in the occupancy set at call time. -/
theorem C8_free_cell_unoccupied (occupied : Pos → Bool) (samples : List Pos)
    (c : Pos) (h : free_cell occupied samples = some c) :
    occupied c = false :=
  free_cell_go_not_occupied occupied (samples.take 10001) c h

/-- Witness for C8: the cell returned on an empty occupancy set is unoccupied. -/
theorem C8_witness : (fun (_ : Pos) => false) ((0 : ℤ), (0 : ℤ)) = false :=
  C8_free_cell_unoccupied (fun _ => false) [] ((0 : ℤ), (0 : ℤ)) (by decide)

/-- C9: `to_over` performs at most one persistence write; exactly one write
recording the new score when the score strictly exceeds the stored highscore
for the round's ruleset key, and none (leaving the store untouched) otherwise. -/
theorem C9_to_over_highscore (difficulty : String) (wrap maze : Bool) (score : ℤ)
    (hs : List (String × ℤ)) :
    (to_over difficulty wrap maze score hs).2 ≤ 1
      ∧ (hs_get hs (ruleset_key difficulty wrap maze) < score →
          (to_over difficulty wrap maze score hs).2 = 1
            ∧ hs_get (to_over difficulty wrap maze score hs).1
                (ruleset_key difficulty wrap maze) = score)
      ∧ (score ≤ hs_get hs (ruleset_key difficulty wrap maze) →
          (to_over difficulty wrap maze score hs).2 = 0
            ∧ (to_over difficulty wrap maze score hs).1 = hs) := by
  simp only [to_over]
  split_ifs with hlt
  · refine ⟨le_rfl, fun _ => ⟨rfl, ?_⟩, fun hle => absurd hlt (not_lt.mpr hle)⟩
    simp [hs_get, hs_set]
  · exact ⟨Nat.zero_le 1, fun hlt' => absurd hlt' hlt, fun _ => ⟨rfl, rfl⟩⟩

/-- Witness for C9: the spec's end-to-end example — score 120 against a stored
80 gives exactly one write of 120; score 50 against the same stored 80 gives
zero writes and an unchanged store. -/
theorem C9_witness :
    ((to_over "NORMAL" false false 120 [(ruleset_key "NORMAL" false false, 80)]).2 = 1
        ∧ hs_get (to_over "NORMAL" false false 120
              [(ruleset_key "NORMAL" false false, 80)]).1
            (ruleset_key "NORMAL" false false) = 120)
      ∧ ((to_over "NORMAL" false false 50 [(ruleset_key "NORMAL" false false, 80)]).2 = 0
          ∧ (to_over "NORMAL" false false 50 [(ruleset_key "NORMAL" false false, 80)]).1
            = [(ruleset_key "NORMAL" false false, 80)]) :=
  ⟨(C9_to_over_highscore "NORMAL" false false 120
      [(ruleset_key "NORMAL" false false, 80)]).2.1 (by decide),
   (C9_to_over_highscore "NORMAL" false false 50
      [(ruleset_key "NORMAL" false false, 80)]).2.2 (by decide)⟩

end SnakeGame
